import Mathlib

/-!
# Verification of the unicast BACnet object-list reader

Shallow embedding of the four client variants in this repository
(`py4.py`, `py3.py`, `read_object_list_unicast.py`,
`read_object_list_unicast2.py`).  Each variant is a `BIPSimpleApplication`
subclass whose behaviour is determined by three handlers:

* a kickoff (`_kickoff` / `kickoff` / `request_device_information`) that
  transmits either a Who-Is (instance unknown) or a
  ReadProperty(objectList) request (instance supplied with `-d`);
* a `confirmation` handler dispatching on the runtime type of the inbound
  APDU (I-Am, ReadPropertyACK, Error/Abort/Reject, anything else);
* for three of the variants, an `indication` override that fires the
  kickoff upon the first inbound message; `py4.py` instead schedules the
  kickoff with `deferred` so it fires when the event loop starts.

The embedding models the protocol-visible behaviour: which APDUs are
transmitted, which object-list lines are emitted, whether an error was
logged (`log.error` / error print), and whether `stop()` was called.
The underlying bacpypes stack (encoding, UDP transport, the base-class
`super().confirmation` / `super().indication` fallthrough, which performs
no transmission of its own on behalf of these scripts) is the external
collaborator and is modelled as a no-op.  String formatting of the
log/print output is sink-level detail and is not modelled; the emitted
object-list lines are modelled by their content, the (1-based index,
object identifier) pairs produced by `enumerate(value.value, 1)`.
-/

/-- BACnet object identifier: a (object-type tag, instance number) pair,
as decoded by the stack from the objectList property.  Opaque,
equal-comparable, stringifiable. -/
structure ObjectIdentifier where
  objType : String
  instanceNum : Nat
deriving DecidableEq, Repr

/-- The `propertyValue` carried by an inbound ReadPropertyACK, as the
`confirmation` handlers see it after the stack's decoding: either an
`ArrayOf` collection of object identifiers, or some other datatype
(the `isinstance(value, ArrayOf)` check fails). -/
inductive PropValue where
  | arrayOf (objs : List ObjectIdentifier)
  | otherDatatype (tag : String)
deriving DecidableEq, Repr

/-- Inbound APDUs as distinguished by the `confirmation` dispatch:
I-Am (carrying the announced device instance), ReadPropertyACK (carrying
a property value), Error / Abort / Reject, and any other APDU (which
falls through to the base class). -/
inductive InApdu where
  | iAm (deviceInstance : Nat)
  | readPropertyAck (propertyValue : PropValue)
  | errorPdu
  | abortPdu
  | rejectPdu
  | otherApdu (tag : String)
deriving DecidableEq, Repr

/-- Outbound APDUs the clients construct: `WhoIsRequest()` and
`ReadPropertyRequest(objectIdentifier=(device, d), propertyIdentifier=p)`.
Every variant only ever constructs `p = "objectList"`; the field is kept
so that the absence of objectName reads is expressible. -/
inductive OutApdu where
  | whoIs
  | readProperty (deviceInstance : Nat) (propertyIdentifier : String)
deriving DecidableEq, Repr

/-- The observable effect of running handler code: APDUs passed to
`self.request`, object-list lines emitted (index, identifier), whether an
error was logged, and whether `stop()` was called. -/
structure Outcome where
  sends : List OutApdu
  emitted : List (Nat × ObjectIdentifier)
  errorLogged : Bool
  stopCalled : Bool
deriving DecidableEq, Repr

/-- Python's `enumerate(xs, i)`: pair each element with its index,
starting from `i`. -/
def enumerateFrom (i : Nat) : List ObjectIdentifier → List (Nat × ObjectIdentifier)
  | [] => []
  | x :: xs => (i, x) :: enumerateFrom (i + 1) xs

namespace Py4

/-- `py4.py` `ClientApplication._read_object_list`: build a
ReadPropertyRequest for (device, device_instance), propertyIdentifier
objectList, addressed to the target. -/
def read_object_list (device_instance : Nat) : OutApdu :=
  OutApdu.readProperty device_instance "objectList"

/-- `py4.py` `ClientApplication._kickoff`: if a device instance was
pre-supplied, send ReadProperty(objectList) for it; otherwise send a
directed Who-Is to the target. -/
def kickoff (known_device_instance : Option Nat) : List OutApdu :=
  match known_device_instance with
  | some d => [read_object_list d]
  | none => [OutApdu.whoIs]

/-- `py4.py` `ClientApplication.confirmation`: I-Am triggers an
object-list read for the announced instance; a ReadPropertyACK carrying
an ArrayOf logs the enumerated object list and stops, any other datatype
logs an error and stops; Error/Abort/Reject logs an error and stops;
anything else falls through to the base class (no effect). -/
def confirmation : InApdu → Outcome
  | .iAm dev_inst => ⟨[read_object_list dev_inst], [], false, false⟩
  | .readPropertyAck (.arrayOf objs) => ⟨[], enumerateFrom 1 objs, false, true⟩
  | .readPropertyAck (.otherDatatype _) => ⟨[], [], true, true⟩
  | .errorPdu => ⟨[], [], true, true⟩
  | .abortPdu => ⟨[], [], true, true⟩
  | .rejectPdu => ⟨[], [], true, true⟩
  | .otherApdu _ => ⟨[], [], false, false⟩

end Py4

namespace Py3

/-- `py3.py` `ClientApplication._read_object_list` (same construction as
`py4.py`). -/
def read_object_list (device_instance : Nat) : OutApdu :=
  OutApdu.readProperty device_instance "objectList"

/-- `py3.py` `ClientApplication._kickoff`. -/
def kickoff (known_device_instance : Option Nat) : List OutApdu :=
  match known_device_instance with
  | some d => [read_object_list d]
  | none => [OutApdu.whoIs]

/-- `py3.py` `ClientApplication.confirmation` (same dispatch as
`py4.py`, log formatting aside). -/
def confirmation : InApdu → Outcome
  | .iAm dev_inst => ⟨[read_object_list dev_inst], [], false, false⟩
  | .readPropertyAck (.arrayOf objs) => ⟨[], enumerateFrom 1 objs, false, true⟩
  | .readPropertyAck (.otherDatatype _) => ⟨[], [], true, true⟩
  | .errorPdu => ⟨[], [], true, true⟩
  | .abortPdu => ⟨[], [], true, true⟩
  | .rejectPdu => ⟨[], [], true, true⟩
  | .otherApdu _ => ⟨[], [], false, false⟩

end Py3

namespace Unicast

/-- `read_object_list_unicast.py` `ClientApplication.read_object_list`. -/
def read_object_list (device_instance : Nat) : OutApdu :=
  OutApdu.readProperty device_instance "objectList"

/-- `read_object_list_unicast.py`
`ClientApplication.request_device_information`: the kickoff, fired from
the `indication` override upon the first inbound message. -/
def request_device_information (known_device_instance : Option Nat) : List OutApdu :=
  match known_device_instance with
  | some d => [read_object_list d]
  | none => [OutApdu.whoIs]

/-- `read_object_list_unicast.py` `ClientApplication.confirmation`
(the ArrayOf branch builds the `objects` string list and prints it
enumerated from 1; content modelled as the (index, identifier) pairs). -/
def confirmation : InApdu → Outcome
  | .iAm dev_inst => ⟨[read_object_list dev_inst], [], false, false⟩
  | .readPropertyAck (.arrayOf objs) => ⟨[], enumerateFrom 1 objs, false, true⟩
  | .readPropertyAck (.otherDatatype _) => ⟨[], [], true, true⟩
  | .errorPdu => ⟨[], [], true, true⟩
  | .abortPdu => ⟨[], [], true, true⟩
  | .rejectPdu => ⟨[], [], true, true⟩
  | .otherApdu _ => ⟨[], [], false, false⟩

end Unicast

namespace Unicast2

/-- `read_object_list_unicast2.py` `ClientApplication.read_object_list`. -/
def read_object_list (device_instance : Nat) : OutApdu :=
  OutApdu.readProperty device_instance "objectList"

/-- `read_object_list_unicast2.py` `ClientApplication.kickoff`, fired
from the `indication` override upon the first inbound message. -/
def kickoff (known_device_instance : Option Nat) : List OutApdu :=
  match known_device_instance with
  | some d => [read_object_list d]
  | none => [OutApdu.whoIs]

/-- `read_object_list_unicast2.py` `ClientApplication.confirmation`. -/
def confirmation : InApdu → Outcome
  | .iAm dev_inst => ⟨[read_object_list dev_inst], [], false, false⟩
  | .readPropertyAck (.arrayOf objs) => ⟨[], enumerateFrom 1 objs, false, true⟩
  | .readPropertyAck (.otherDatatype _) => ⟨[], [], true, true⟩
  | .errorPdu => ⟨[], [], true, true⟩
  | .abortPdu => ⟨[], [], true, true⟩
  | .rejectPdu => ⟨[], [], true, true⟩
  | .otherApdu _ => ⟨[], [], false, false⟩

end Unicast2

/-- The bacpypes event loop (`run()` / `stop()`), shared by all four
variants: deliver the inbound APDUs to the application's `confirmation`
handler one at a time; once `stop()` has been called the loop exits and
no further message is delivered. -/
def runMsgs (conf : InApdu → Outcome) : List InApdu → Outcome
  | [] => ⟨[], [], false, false⟩
  | m :: ms =>
    let o := conf m
    if o.stopCalled then o
    else
      let r := runMsgs conf ms
      ⟨o.sends ++ r.sends, o.emitted ++ r.emitted, o.errorLogged || r.errorLogged, r.stopCalled⟩

/-- A whole `py4.py` session: `deferred(self._kickoff)` fires the kickoff
when the event loop starts, before any inbound message is delivered; then
the loop runs over the inbound messages. -/
def run_py4 (known : Option Nat) (msgs : List InApdu) : Outcome :=
  let r := runMsgs Py4.confirmation msgs
  ⟨Py4.kickoff known ++ r.sends, r.emitted, r.errorLogged, r.stopCalled⟩

/-- A whole `py3.py` session: the `indication` override fires the kickoff
upon the first inbound message (then restores the base handler); with no
inbound message the kickoff never fires and nothing is transmitted. -/
def run_py3 (known : Option Nat) (msgs : List InApdu) : Outcome :=
  match msgs with
  | [] => ⟨[], [], false, false⟩
  | m :: ms =>
    let r := runMsgs Py3.confirmation (m :: ms)
    ⟨Py3.kickoff known ++ r.sends, r.emitted, r.errorLogged, r.stopCalled⟩

/-- A whole `read_object_list_unicast.py` session: kickoff
(`request_device_information`) upon the first inbound indication. -/
def run_unicast (known : Option Nat) (msgs : List InApdu) : Outcome :=
  match msgs with
  | [] => ⟨[], [], false, false⟩
  | m :: ms =>
    let r := runMsgs Unicast.confirmation (m :: ms)
    ⟨Unicast.request_device_information known ++ r.sends, r.emitted, r.errorLogged, r.stopCalled⟩

/-- A whole `read_object_list_unicast2.py` session: kickoff upon the
first inbound indication. -/
def run_unicast2 (known : Option Nat) (msgs : List InApdu) : Outcome :=
  match msgs with
  | [] => ⟨[], [], false, false⟩
  | m :: ms =>
    let r := runMsgs Unicast2.confirmation (m :: ms)
    ⟨Unicast2.kickoff known ++ r.sends, r.emitted, r.errorLogged, r.stopCalled⟩

/-- `main` in `py4.py`: builds the application, calls `run()`, catches
KeyboardInterrupt, logs, and returns `None` on every path; no branch
calls `sys.exit` or re-raises, so the interpreter exits with status 0
regardless of the session outcome. -/
def main_exit_status (known : Option Nat) (msgs : List InApdu) : Nat :=
  match run_py4 known msgs with
  | _ => 0

/-! ## Correlator view: the send/receive event trace of a session

The spec's Request Correlator discipline (one outstanding request at a
time) is a property of the interleaved send/receive trace.  The trace is
built from the same handlers: a received APDU resolves the oldest
outstanding request it answers (an I-Am answers a Who-Is; a
ReadPropertyACK or an Error/Abort/Reject answers a ReadProperty). -/

/-- A protocol event of a session: an APDU transmitted by the client or
an APDU received from the network. -/
inductive Event where
  | send (a : OutApdu)
  | recv (a : InApdu)
deriving DecidableEq, Repr

/-- Which inbound APDU answers which outstanding request: an I-Am
answers a Who-Is; a ReadPropertyACK or Error/Abort/Reject answers a
ReadProperty exchange. -/
def resolves : OutApdu → InApdu → Bool
  | .whoIs, .iAm _ => true
  | .readProperty _ _, .readPropertyAck _ => true
  | .readProperty _ _, .errorPdu => true
  | .readProperty _ _, .abortPdu => true
  | .readProperty _ _, .rejectPdu => true
  | _, _ => false

/-- Remove the oldest outstanding request answered by the inbound APDU,
if any. -/
def removeFirstResolved : List OutApdu → InApdu → List OutApdu
  | [], _ => []
  | p :: ps, m => if resolves p m then ps else p :: removeFirstResolved ps m

/-- One step of the outstanding-request set: a send adds a request, a
receive resolves at most one. -/
def stepPending (pending : List OutApdu) : Event → List OutApdu
  | .send a => pending ++ [a]
  | .recv m => removeFirstResolved pending m

/-- The largest number of simultaneously outstanding requests reached
along an event trace, starting from a given outstanding set. -/
def maxOutstanding : List OutApdu → List Event → Nat
  | pending, [] => pending.length
  | pending, e :: es => max pending.length (maxOutstanding (stepPending pending e) es)

/-- The event trace produced by delivering inbound messages to a
`confirmation` handler: each message is received, then the handler's
transmissions follow; after `stop()` the remaining messages are not
delivered. -/
def traceOfMsgs (conf : InApdu → Outcome) : List InApdu → List Event
  | [] => []
  | m :: ms =>
    Event.recv m :: (conf m).sends.map Event.send ++
      (if (conf m).stopCalled then [] else traceOfMsgs conf ms)

/-- The event trace of a `py4.py` session: the deferred kickoff
transmission(s) at event-loop start, then the delivery loop. -/
def trace_py4 (known : Option Nat) (msgs : List InApdu) : List Event :=
  (Py4.kickoff known).map Event.send ++ traceOfMsgs Py4.confirmation msgs

/-- Recognise an I-Am announcement. -/
def isIAm : InApdu → Bool
  | .iAm _ => true
  | _ => false

/-- Number of I-Am announcements in an inbound message sequence. -/
def countIAm (msgs : List InApdu) : Nat :=
  (msgs.filter isIAm).length

/-- Number of ReadProperty requests in an outstanding set. -/
def rpCount : List OutApdu → Nat
  | [] => 0
  | .readProperty _ _ :: ps => 1 + rpCount ps
  | .whoIs :: ps => rpCount ps

/-- Recognise a name-read: a ReadProperty request whose
propertyIdentifier is objectName. -/
def isNameRead : OutApdu → Bool
  | .readProperty _ p => p == "objectName"
  | _ => false

/-- Recognise an inbound APDU that matches none of the `confirmation`
dispatch branches (falls through to the base class). -/
def isUnmatched : InApdu → Bool
  | .otherApdu _ => true
  | _ => false

/-! ## Helper lemmas -/

theorem enumerateFrom_length (i : Nat) (l : List ObjectIdentifier) :
    (enumerateFrom i l).length = l.length := by
  induction l generalizing i with
  | nil => rfl
  | cons x xs ih => simp [enumerateFrom, ih]

theorem enumerateFrom_map_snd (i : Nat) (l : List ObjectIdentifier) :
    (enumerateFrom i l).map Prod.snd = l := by
  induction l generalizing i with
  | nil => rfl
  | cons x xs ih => simp [enumerateFrom, ih]

theorem isNameRead_objectList (d : Nat) :
    isNameRead (OutApdu.readProperty d "objectList") = false := rfl

theorem removeFirstResolved_length_le (p : List OutApdu) (m : InApdu) :
    (removeFirstResolved p m).length ≤ p.length := by
  induction p with
  | nil => simp [removeFirstResolved]
  | cons a ps ih =>
    simp only [removeFirstResolved]
    split
    · simp [Nat.le_succ]
    · simpa using Nat.succ_le_succ ih

theorem removeFirstResolved_unmatched (p : List OutApdu) (t : String) :
    removeFirstResolved p (InApdu.otherApdu t) = p := by
  induction p with
  | nil => rfl
  | cons a ps ih => cases a <;> simp [removeFirstResolved, resolves, ih]

theorem pending_shape (pending : List OutApdu) (hlen : pending.length ≤ 1) :
    pending = [] ∨ pending = [OutApdu.whoIs] ∨
      ∃ e s, pending = [OutApdu.readProperty e s] := by
  match pending with
  | [] => exact Or.inl rfl
  | [OutApdu.whoIs] => exact Or.inr (Or.inl rfl)
  | [OutApdu.readProperty e s] => exact Or.inr (Or.inr ⟨e, s, rfl⟩)
  | p :: q :: r => simp at hlen

theorem countIAm_cons_iAm (d : Nat) (ms : List InApdu) :
    countIAm (InApdu.iAm d :: ms) = countIAm ms + 1 := by
  simp [countIAm, List.filter_cons, isIAm]

theorem countIAm_cons_other (t : String) (ms : List InApdu) :
    countIAm (InApdu.otherApdu t :: ms) = countIAm ms := by
  simp [countIAm, List.filter_cons, isIAm]

theorem runMsgs_no_whoIs (conf : InApdu → Outcome)
    (h : ∀ m, OutApdu.whoIs ∉ (conf m).sends) (msgs : List InApdu) :
    OutApdu.whoIs ∉ (runMsgs conf msgs).sends := by
  induction msgs with
  | nil => simp [runMsgs]
  | cons m ms ih =>
    by_cases hs : (conf m).stopCalled
    · simpa [runMsgs, hs] using h m
    · simp only [runMsgs, hs, if_neg, Bool.false_eq_true, not_false_eq_true, List.mem_append]
      simp [List.mem_append]
      exact ⟨h m, ih⟩

theorem py4_conf_sends_no_whoIs (m : InApdu) :
    OutApdu.whoIs ∉ (Py4.confirmation m).sends := by
  rcases m with d | v | _ | _ | _ | t
  · simp [Py4.confirmation, Py4.read_object_list]
  · rcases v with objs | tg <;> simp [Py4.confirmation]
  · simp [Py4.confirmation]
  · simp [Py4.confirmation]
  · simp [Py4.confirmation]
  · simp [Py4.confirmation]

theorem py4_conf_sends_no_nameRead (m : InApdu) :
    (Py4.confirmation m).sends.filter isNameRead = [] := by
  rcases m with d | v | _ | _ | _ | t
  · simp [Py4.confirmation, Py4.read_object_list, List.filter_cons, isNameRead_objectList]
  · rcases v with objs | tg <;> simp [Py4.confirmation]
  · simp [Py4.confirmation]
  · simp [Py4.confirmation]
  · simp [Py4.confirmation]
  · simp [Py4.confirmation]

theorem runMsgs_filter_nameRead (conf : InApdu → Outcome)
    (h : ∀ m, (conf m).sends.filter isNameRead = []) (msgs : List InApdu) :
    (runMsgs conf msgs).sends.filter isNameRead = [] := by
  induction msgs with
  | nil => rfl
  | cons m ms ih =>
    by_cases hs : (conf m).stopCalled
    · simpa [runMsgs, hs] using h m
    · simp [runMsgs, hs, List.filter_append, h m, ih]

theorem runMsgs_all_unmatched (msgs : List InApdu) (h : msgs.all isUnmatched = true) :
    runMsgs Py4.confirmation msgs = ⟨[], [], false, false⟩ := by
  induction msgs with
  | nil => rfl
  | cons m ms ih =>
    rw [List.all_cons, Bool.and_eq_true] at h
    rcases m with d | v | _ | _ | _ | t
    · simp [isUnmatched] at h
    · simp [isUnmatched] at h
    · simp [isUnmatched] at h
    · simp [isUnmatched] at h
    · simp [isUnmatched] at h
    · simp [runMsgs, Py4.confirmation, ih h.2]

theorem maxOutstanding_py4_le_one (msgs : List InApdu) (pending : List OutApdu)
    (hlen : pending.length ≤ 1)
    (hcnt : countIAm msgs + rpCount pending ≤ 1) :
    maxOutstanding pending (traceOfMsgs Py4.confirmation msgs) ≤ 1 := by
  induction msgs generalizing pending with
  | nil => simpa [traceOfMsgs, maxOutstanding] using hlen
  | cons m ms ih =>
    rcases m with d | v | _ | _ | _ | t
    · -- I-Am: the Who-Is (if pending) is resolved, then a ReadProperty goes out
      rw [countIAm_cons_iAm] at hcnt
      have hms : countIAm ms = 0 := by omega
      have hrp : rpCount pending = 0 := by omega
      have hX := ih [OutApdu.readProperty d "objectList"] (by simp)
        (by simp [rpCount]; omega)
      rcases pending_shape pending hlen with hp | hp | ⟨e, s, hp⟩
      · subst hp
        simpa [traceOfMsgs, Py4.confirmation, Py4.read_object_list, maxOutstanding,
          stepPending, removeFirstResolved, resolves, Nat.max_le] using hX
      · subst hp
        simpa [traceOfMsgs, Py4.confirmation, Py4.read_object_list, maxOutstanding,
          stepPending, removeFirstResolved, resolves, Nat.max_le] using hX
      · subst hp
        simp [rpCount] at hrp
    · -- ReadPropertyACK: the handler stops the loop, trace ends here
      rcases v with objs | tg <;>
        simp [traceOfMsgs, Py4.confirmation, maxOutstanding, stepPending, Nat.max_le] <;>
        exact ⟨hlen, le_trans (removeFirstResolved_length_le pending _) hlen⟩
    · simp [traceOfMsgs, Py4.confirmation, maxOutstanding, stepPending, Nat.max_le]
      exact ⟨hlen, le_trans (removeFirstResolved_length_le pending _) hlen⟩
    · simp [traceOfMsgs, Py4.confirmation, maxOutstanding, stepPending, Nat.max_le]
      exact ⟨hlen, le_trans (removeFirstResolved_length_le pending _) hlen⟩
    · simp [traceOfMsgs, Py4.confirmation, maxOutstanding, stepPending, Nat.max_le]
      exact ⟨hlen, le_trans (removeFirstResolved_length_le pending _) hlen⟩
    · -- unmatched APDU: no transmission, outstanding set unchanged
      rw [countIAm_cons_other] at hcnt
      have hX := ih pending hlen hcnt
      simpa [traceOfMsgs, Py4.confirmation, maxOutstanding, stepPending,
        removeFirstResolved_unmatched, Nat.max_le] using ⟨hlen, hX⟩

theorem py3_confirmation_eq : Py3.confirmation = Py4.confirmation := by
  funext m
  rcases m with d | v | _ | _ | _ | t
  · rfl
  · rcases v with objs | tg <;> rfl
  · rfl
  · rfl
  · rfl
  · rfl

theorem unicast_confirmation_eq : Unicast.confirmation = Py4.confirmation := by
  funext m
  rcases m with d | v | _ | _ | _ | t
  · rfl
  · rcases v with objs | tg <;> rfl
  · rfl
  · rfl
  · rfl
  · rfl

theorem unicast2_confirmation_eq : Unicast2.confirmation = Py4.confirmation := by
  funext m
  rcases m with d | v | _ | _ | _ | t
  · rfl
  · rcases v with objs | tg <;> rfl
  · rfl
  · rfl
  · rfl
  · rfl

theorem py3_kickoff_eq : Py3.kickoff = Py4.kickoff := by
  funext k
  rcases k with _ | d <;> rfl

theorem unicast_kickoff_eq : Unicast.request_device_information = Py4.kickoff := by
  funext k
  rcases k with _ | d <;> rfl

theorem unicast2_kickoff_eq : Unicast2.kickoff = Py4.kickoff := by
  funext k
  rcases k with _ | d <;> rfl

theorem runMsgs_py4_all_iAm (ds : List Nat) :
    runMsgs Py4.confirmation (ds.map InApdu.iAm) =
      ⟨ds.map (fun d => OutApdu.readProperty d "objectList"), [], false, false⟩ := by
  induction ds with
  | nil => rfl
  | cons d ds ih =>
    simp [runMsgs, Py4.confirmation, Py4.read_object_list, ih]

theorem isNameRead_whoIs : isNameRead OutApdu.whoIs = false := rfl

theorem runMsgs_cons_unmatched (conf : InApdu → Outcome) (t : String) (ms : List InApdu)
    (h : conf (InApdu.otherApdu t) = ⟨[], [], false, false⟩) :
    runMsgs conf (InApdu.otherApdu t :: ms) = runMsgs conf ms := by
  rcases hr : runMsgs conf ms with ⟨s, e, er, st⟩
  simp [runMsgs, h, hr]

/-! ## Claims -/

/-- C1 (amended): along a `py4.py` session whose inbound sequence delivers at
most one I-Am while the kickoff request budget allows it (at most one I-Am
when discovery is used, none when the instance is pre-supplied), at most one
request is outstanding at every point of the send/receive trace.  As stated
the claim is false: the `confirmation` handler transmits a further
ReadProperty(objectList) for every received I-Am, so a second announcement
arriving while the first ReadProperty is unresolved puts two requests in
flight (see the counterexample). -/
theorem c1_single_outstanding (known : Option Nat) (msgs : List InApdu)
    (h : countIAm msgs + rpCount (Py4.kickoff known) ≤ 1) :
    maxOutstanding [] (trace_py4 known msgs) ≤ 1 := by
  rcases known with _ | d
  · have hX := maxOutstanding_py4_le_one msgs [OutApdu.whoIs] (by simp)
      (by simpa [Py4.kickoff, rpCount] using h)
    simpa [trace_py4, Py4.kickoff, maxOutstanding, stepPending] using hX
  · have hX := maxOutstanding_py4_le_one msgs [OutApdu.readProperty d "objectList"]
      (by simp) (by simpa [Py4.kickoff, Py4.read_object_list, rpCount] using h)
    simpa [trace_py4, Py4.kickoff, Py4.read_object_list, maxOutstanding,
      stepPending] using hX

/-- Witness for C1: a discovery session receiving a single I-Am satisfies the
hypothesis and the bound. -/
theorem c1_witness :
    countIAm [InApdu.iAm 7] + rpCount (Py4.kickoff none) ≤ 1 ∧
    maxOutstanding [] (trace_py4 none [InApdu.iAm 7]) ≤ 1 :=
  ⟨by decide, c1_single_outstanding none [InApdu.iAm 7] (by decide)⟩

/-- Counterexample to C1 as stated: two I-Am announcements arrive before the
first ReadProperty resolves; the program transmits a second
ReadProperty(objectList) while the first is outstanding, and the
outstanding-request count reaches 2. -/
theorem c1_counterexample :
    maxOutstanding [] (trace_py4 none [InApdu.iAm 7, InApdu.iAm 8]) = 2 ∧
    (run_py4 none [InApdu.iAm 7, InApdu.iAm 8]).sends =
      [OutApdu.whoIs, OutApdu.readProperty 7 "objectList",
        OutApdu.readProperty 8 "objectList"] :=
  ⟨rfl, rfl⟩

/-- C2 (amended): the program never issues a name-read.  No transmitted
request of any `py4.py` session carries propertyIdentifier objectName: the
code contains no name-enumeration stage at all; after a successful
object-list retrieval it emits the identifiers (no names, no error markers)
and stops.  As stated the claim is false (see the counterexample). -/
theorem c2_no_name_reads_issued (known : Option Nat) (msgs : List InApdu) :
    (run_py4 known msgs).sends.filter isNameRead = [] := by
  have hr := runMsgs_filter_nameRead Py4.confirmation py4_conf_sends_no_nameRead msgs
  rcases known with _ | d <;>
    simp [run_py4, Py4.kickoff, Py4.read_object_list, List.filter_append,
      List.filter_cons, isNameRead_whoIs, isNameRead_objectList, hr]

/-- Counterexample to C2 as stated: a successful retrieval decodes one object
identifier and the session completes, yet zero name-read requests were
transmitted (the claim requires one per identifier). -/
theorem c2_counterexample :
    (run_py4 (some 42)
      [InApdu.readPropertyAck (PropValue.arrayOf [⟨"analogInput", 1⟩])]).emitted.length
        = 1 ∧
    ((run_py4 (some 42)
      [InApdu.readPropertyAck (PropValue.arrayOf [⟨"analogInput", 1⟩])]).sends.filter
        isNameRead) = [] ∧
    (run_py4 (some 42)
      [InApdu.readPropertyAck (PropValue.arrayOf [⟨"analogInput", 1⟩])]).stopCalled
        = true :=
  ⟨rfl, rfl, rfl⟩

/-- C3: for every successful object-list retrieval whose decoded collection
has length n, the emitted result sequence has length exactly n and lists the
object identifiers in the server-reported order (projecting the emitted
(index, identifier) lines to identifiers gives back the decoded list). -/
theorem c3_result_length_and_order (d : Nat) (objs : List ObjectIdentifier) :
    (run_py4 (some d) [InApdu.readPropertyAck (PropValue.arrayOf objs)]).emitted.length
        = objs.length ∧
    (run_py4 (some d) [InApdu.readPropertyAck (PropValue.arrayOf objs)]).emitted.map
        Prod.snd = objs := by
  constructor
  · simp [run_py4, runMsgs, Py4.confirmation, enumerateFrom_length]
  · simp [run_py4, runMsgs, Py4.confirmation, enumerateFrom_map_snd]

/-- C4: if a known device instance is supplied at session start, no Who-Is is
ever transmitted, whatever inbound messages arrive; the `py4.py` session's
first transmission is directly the ReadProperty(objectList) for the supplied
instance (shown for `py4.py` and `read_object_list_unicast2.py`, the two
variants the claim cites). -/
theorem c4_no_whois_when_instance_known (d : Nat) (msgs : List InApdu) :
    OutApdu.whoIs ∉ (run_py4 (some d) msgs).sends ∧
    OutApdu.whoIs ∉ (run_unicast2 (some d) msgs).sends ∧
    (run_py4 (some d) msgs).sends.head? = some (OutApdu.readProperty d "objectList") := by
  refine ⟨?_, ?_, rfl⟩
  · have hr := runMsgs_no_whoIs Py4.confirmation py4_conf_sends_no_whoIs msgs
    simp [run_py4, Py4.kickoff, Py4.read_object_list]
    exact hr
  · cases msgs with
    | nil => simp [run_unicast2]
    | cons m ms =>
      have hr := runMsgs_no_whoIs Unicast2.confirmation
        (fun x => by rw [unicast2_confirmation_eq]; exact py4_conf_sends_no_whoIs x)
        (m :: ms)
      simp [run_unicast2, Unicast2.kickoff, Unicast2.read_object_list]
      exact hr

/-- C5 (amended): an inbound APDU matching no `confirmation` branch is
ignored — nothing transmitted, no stop, no error — once the session's
kickoff has fired (`py4.py` always, the indication-variants after their
first inbound message).  As stated the claim is false for the
indication-variants: there the very first inbound message, related or not,
fires the kickoff and so triggers a transmission (see the counterexample). -/
theorem c5_unmatched_is_ignored (t : String) (known : Option Nat) (ms : List InApdu) :
    Py4.confirmation (InApdu.otherApdu t) = ⟨[], [], false, false⟩ ∧
    runMsgs Unicast.confirmation (InApdu.otherApdu t :: ms) =
      runMsgs Unicast.confirmation ms ∧
    (run_unicast known [InApdu.otherApdu t]).sends =
      Unicast.request_device_information known ∧
    (run_unicast known [InApdu.otherApdu t]).stopCalled = false ∧
    (run_unicast known [InApdu.otherApdu t]).errorLogged = false := by
  refine ⟨rfl, runMsgs_cons_unmatched _ t ms rfl, ?_, rfl, rfl⟩
  simp [run_unicast, runMsgs, Unicast.confirmation]

/-- Counterexample to C5 as stated: in `read_object_list_unicast.py`, an
unrelated message arriving while idle — before this session's first outgoing
request — triggers the kickoff, so the program transmits a Who-Is in
response instead of ignoring it. -/
theorem c5_counterexample :
    (run_unicast none [InApdu.otherApdu "networkChatter"]).sends = [OutApdu.whoIs] :=
  rfl

/-- C6 (amended): every I-Am received before the session stops is honored:
each announcement triggers a further ReadProperty(objectList) for the
instance it carries, in arrival order.  As stated ("only the first is
honored; subsequent ones are ignored") the claim is false (see the
counterexample). -/
theorem c6_every_iam_triggers_read (ds : List Nat) :
    (run_py4 none (ds.map InApdu.iAm)).sends =
      OutApdu.whoIs :: ds.map (fun d => OutApdu.readProperty d "objectList") := by
  simp [run_py4, Py4.kickoff, runMsgs_py4_all_iAm]

/-- Counterexample to C6 as stated: a second I-Am announcement is not
ignored — it triggers a second object-list read for its instance. -/
theorem c6_counterexample :
    (run_py4 none [InApdu.iAm 5, InApdu.iAm 6]).sends =
      [OutApdu.whoIs, OutApdu.readProperty 5 "objectList",
        OutApdu.readProperty 6 "objectList"] :=
  rfl

/-- C7 (amended): the process exits with status 0 in every run — on full
success and equally on fatal failures (error/abort/reject replies, malformed
object-list values): `main` never calls `sys.exit` and returns normally, so
failures are reported only in the log.  As stated ("non-zero status whenever
retrieval fails fatally") the claim is false (see the counterexample). -/
theorem c7_exit_status_always_zero (known : Option Nat) (msgs : List InApdu) :
    main_exit_status known msgs = 0 := rfl

/-- Counterexample to C7 as stated: an Error reply to the object-list read is
a fatal failure — the session logs the error and stops — yet the process exit
status is 0, not non-zero. -/
theorem c7_counterexample :
    (run_py4 (some 42) [InApdu.errorPdu]).errorLogged = true ∧
    (run_py4 (some 42) [InApdu.errorPdu]).stopCalled = true ∧
    main_exit_status (some 42) [InApdu.errorPdu] = 0 :=
  ⟨rfl, rfl, rfl⟩

/-- C8: a ReadPropertyACK that does not carry the expected ArrayOf collection
is a fatal decoding error: the session logs the error and stops immediately
(any later inbound messages are never delivered — the result does not depend
on `ms`), nothing is emitted, and no further request (in particular no name
enumeration) is transmitted beyond the original object-list read. -/
theorem c8_datatype_mismatch_fatal (d : Nat) (tag : String) (ms : List InApdu) :
    run_py4 (some d) (InApdu.readPropertyAck (PropValue.otherDatatype tag) :: ms) =
      ⟨[OutApdu.readProperty d "objectList"], [], true, true⟩ := rfl

/-- C9 (amended): if no announcement arrives, the discovery session never
terminates of its own accord: the code installs no timeout, so for any
inbound sequence of unmatched messages the session has not stopped, no error
("device did not respond to discovery" exists nowhere in the code) has been
logged, and no object enumeration was started — the Who-Is simply stays
unresolved until the user interrupts the process.  As stated ("transitions
to Failed ... does not wait forever") the claim is false (see the
counterexample). -/
theorem c9_no_discovery_timeout (msgs : List InApdu) (h : msgs.all isUnmatched = true) :
    (run_py4 none msgs).stopCalled = false ∧
    (run_py4 none msgs).errorLogged = false ∧
    (run_py4 none msgs).sends = [OutApdu.whoIs] := by
  have hr := runMsgs_all_unmatched msgs h
  refine ⟨?_, ?_, ?_⟩ <;> simp [run_py4, hr, Py4.kickoff]

/-- Witness for C9: a session receiving only one unmatched message. -/
theorem c9_witness :
    ([InApdu.otherApdu "noise"].all isUnmatched = true) ∧
    ((run_py4 none [InApdu.otherApdu "noise"]).stopCalled = false ∧
     (run_py4 none [InApdu.otherApdu "noise"]).errorLogged = false ∧
     (run_py4 none [InApdu.otherApdu "noise"]).sends = [OutApdu.whoIs]) :=
  ⟨rfl, c9_no_discovery_timeout [InApdu.otherApdu "noise"] rfl⟩

/-- Counterexample to C9 as stated: with no announcement ever arriving the
session has transmitted its Who-Is but has not terminated and has reported
no discovery error. -/
theorem c9_counterexample :
    run_py4 none [] = ⟨[OutApdu.whoIs], [], false, false⟩ := rfl

/-- C10 (amended): given the same CLI inputs and the same NONEMPTY inbound
message sequence, the four variants produce identical observable outcomes —
the same outbound APDUs in the same order, the same emitted lines, the same
error flag and the same stop condition — differing only in output sink.  As
stated (for every inbound sequence) the claim is false: `py4.py` fires its
kickoff at event-loop start while the other three fire it only upon the
first inbound indication, so on an empty inbound sequence `py4.py` transmits
its first request and the others transmit nothing (see the counterexample,
which the claim's own last sentence concedes). -/
theorem c10_variants_equivalent (known : Option Nat) (msgs : List InApdu)
    (h : msgs ≠ []) :
    run_py3 known msgs = run_py4 known msgs ∧
    run_unicast known msgs = run_py4 known msgs ∧
    run_unicast2 known msgs = run_py4 known msgs := by
  cases msgs with
  | nil => exact absurd rfl h
  | cons m ms =>
    refine ⟨?_, ?_, ?_⟩
    · simp [run_py3, run_py4, py3_confirmation_eq, py3_kickoff_eq]
    · simp [run_unicast, run_py4, unicast_confirmation_eq, unicast_kickoff_eq]
    · simp [run_unicast2, run_py4, unicast2_confirmation_eq, unicast2_kickoff_eq]

/-- Witness for C10: the three variants agree with `py4.py` on a one-message
session. -/
theorem c10_witness :
    ([InApdu.iAm 3] ≠ ([] : List InApdu)) ∧
    (run_py3 none [InApdu.iAm 3] = run_py4 none [InApdu.iAm 3] ∧
     run_unicast none [InApdu.iAm 3] = run_py4 none [InApdu.iAm 3] ∧
     run_unicast2 none [InApdu.iAm 3] = run_py4 none [InApdu.iAm 3]) :=
  ⟨by simp, c10_variants_equivalent none [InApdu.iAm 3] (by simp)⟩

/-- Counterexample to C10 as stated: same CLI inputs (instance 42 supplied),
same inbound sequence (empty), yet `py4.py` transmits its ReadProperty while
the other three variants transmit nothing. -/
theorem c10_counterexample :
    (run_py4 (some 42) []).sends = [OutApdu.readProperty 42 "objectList"] ∧
    (run_py3 (some 42) []).sends = [] ∧
    (run_unicast (some 42) []).sends = [] ∧
    (run_unicast2 (some 42) []).sends = [] :=
  ⟨rfl, rfl, rfl, rfl⟩
